import Mathlib

/-!
Verification of the menu/dialog coordination and keystroke-claim logic of the
SmartCharts web-component library (src/src/components/components.js).

The development shallowly embeds the relevant component code:

* an overlay-coordination state machine (Menu.prototype.tap / captureTap from the
  source; UIManager.openMenu / closeMenu / topMenu live in componentUI.js which is
  not part of this file set, so those operations are modelled from the spec);
* per-component models of Menu.show/hide, Dialog.show/hide/resize/stxContextMenu/
  center/tap, Scroll.keyStroke/scrollToElement, Lookup.keyStroke, and the
  Undo component's stacks.

JS numbers used for geometry are embedded as rationals; DOM collections as lists;
fallible code (undefined dereferences) via Except.
-/

namespace SmartCharts

/-! ## Overlay coordination model

Overlays (cq-menu / cq-dialog elements) are identified by opaque ids.  The static
containment hierarchy gives, for each overlay, the ordered list of its ancestor
overlays (`$(node).parents('cq-menu,cq-dialog')`, closest first). -/

abbrev OverlayId := Nat

structure Hierarchy where
  chain : OverlayId → List OverlayId

/-- The dynamic coordination state: which overlays are currently active
(`this.active` on cq-menu / cq-dialog instances). -/
structure UIState where
  active : OverlayId → Bool

/-- Initial state: no overlay active (Menu.createdCallback sets active = false). -/
def initState : UIState := ⟨fun _ => false⟩

/-- Modelled from the spec: `openOverlay(o, params)` of UIManager.openMenu
(componentUI.js, not under src/): "closes any currently active overlay that is
not an ancestor of `o`; marks `o` active". -/
def openOverlay (H : Hierarchy) (s : UIState) (o : OverlayId) : UIState :=
  ⟨fun x => decide (x = o) || (s.active x && decide (x ∈ H.chain o))⟩

/-- Modelled from the spec: `closeOverlay(o)` of UIManager.closeMenu(menu)
(componentUI.js, not under src/): "marks inactive" (the blur side effects are
modelled separately on the component states). -/
def closeOverlay (s : UIState) (o : OverlayId) : UIState :=
  ⟨fun x => s.active x && !decide (x = o)⟩

/-- Modelled from the spec and the source comment at Menu.prototype.tap:
`uiManager.closeMenu()` with no argument closes all menus. -/
def closeAllOverlays : UIState := ⟨fun _ => false⟩

/-- A DOM element as seen by Menu.prototype.captureTap: only its cq-no-close
attribute and whether it is a cq-separator or cq-heading tag matter. -/
structure Elem where
  noCloseAttr : Bool
  isSeparator : Bool
  isHeading : Bool
deriving DecidableEq

/-- The information about a tap event that Menu.prototype.captureTap and
Menu.prototype.tap inspect: `$(e.target).parents().addBack()` (the tapped
element and all its DOM ancestors) and whether some parent of the target is a
cq-menu-dropdown. -/
structure TapTarget where
  domChain : List Elem
  insideDropdown : Bool
deriving DecidableEq

/-- Menu.prototype.captureTap: `this.noClose` is truthy iff some element of the
target's chain carries a cq-no-close attribute, or (failing that) some element
of the chain is a cq-separator or cq-heading.  The source stores the matching
filter's length; we embed its truthiness. -/
def captureTap (t : TapTarget) : Bool :=
  if t.domChain.any (fun e => e.noCloseAttr) then true
  else t.domChain.any (fun e => e.isSeparator || e.isHeading)

/-- Menu.prototype.tap for a stxtap event dispatched inside menu `m`'s subtree
(the handler is registered by `this.node.stxtap` so it only ever fires for such
taps).  `captureTap` has already run for the same event (capture phase).
If the menu is active: close it via closeMenu(this) unless noClose.
If inactive: ignore taps coming from within the dropdown; otherwise close all
menus unless an ancestor menu/dialog is active (cascading), then open. -/
def menuTap (H : Hierarchy) (s : UIState) (m : OverlayId) (t : TapTarget) : UIState :=
  if s.active m then
    if captureTap t then s else closeOverlay s m
  else if t.insideDropdown then s
  else if (H.chain m).any (fun p => s.active p) then openOverlay H s m
  else openOverlay H closeAllOverlays m

/-- Dialog.prototype.tap: returns whether propagation is stopped (so that the
tap cannot go on to close this dialog).  Propagation is stopped when the dialog
is the top menu, or when the tapped dialog is no longer active. -/
def dialogTap (isTopMenu : Bool) (currentTargetActive : Bool) : Bool :=
  if isTopMenu then true else !currentTargetActive

/-- The operations of the coordination protocol. -/
inductive UIOp where
  | openOp : OverlayId → UIOp
  | closeOp : OverlayId → UIOp
  | tapOp : OverlayId → TapTarget → UIOp

def step (H : Hierarchy) (s : UIState) : UIOp → UIState
  | .openOp o => openOverlay H s o
  | .closeOp o => closeOverlay s o
  | .tapOp m t => menuTap H s m t

/-- Run a sequence of operations from the initial (all-inactive) state. -/
def run (H : Hierarchy) (ops : List UIOp) : UIState :=
  ops.foldl (step H) initState

/-- The root of an overlay's containment stack: its outermost ancestor overlay
(jQuery parents() is ordered closest-first), or the overlay itself when it has
no ancestor overlay. -/
def stackRoot (H : Hierarchy) (o : OverlayId) : OverlayId :=
  (H.chain o).getLast?.getD o

/-- Invariant: any two distinct active overlays are ancestor-related. -/
def chainInv (H : Hierarchy) (s : UIState) : Prop :=
  ∀ a b, s.active a = true → s.active b = true → a ≠ b →
    a ∈ H.chain b ∨ b ∈ H.chain a

/-! ## Keystroke routing

Keys arrive either as key codes or as names such as "up", "enter", "backspace"
(see CIQ.UI.Keystroke).  The hub and its claim registry live in componentUI.js,
outside this file set, so routing is modelled from the spec. -/

inductive Key where
  | num : Nat → Key
  | name : String → Key
deriving DecidableEq

/-- Modifier state of a keystroke. -/
structure Keystroke where
  ctrl : Bool
  cmd : Bool
  shift : Bool
deriving DecidableEq

/-- A registered claimant: its identity and whether its keyStroke handler
returns a truthy (handled) result for a given key. -/
structure Claimant where
  id : Nat
  responds : Key → Bool

/-- Modelled from the spec: `routeKeyStroke(key, modifiers)` of the keystroke
hub (componentUI.js, not under src/): "iterates ClaimRegistry in registration
order; delivers to each claimant until one returns handled".  The result lists
each consulted claimant together with whether it handled the keystroke. -/
def routeKeyStroke (registry : List Claimant) (key : Key) : List (Nat × Bool) :=
  match registry with
  | [] => []
  | c :: rest =>
    if c.responds key then [(c.id, true)]
    else (c.id, false) :: routeKeyStroke rest key

/-! ## Per-component overlay state

Component-level embeddings of Menu.show/hide and Dialog.show/hide/resize with
CSS classes, attributes, geometry and document focus. -/

abbrev ElemId := Nat

/-- `document.activeElement` (none stands for focus on the body). -/
structure FocusState where
  activeElement : Option ElemId
deriving DecidableEq

/-- jQuery addClass / attrBetter: add a token unless already present. -/
def addClass (classes : List String) (c : String) : List String :=
  if c ∈ classes then classes else classes ++ [c]

/-- jQuery removeClass / removeAttrBetter. -/
def removeClass (classes : List String) (c : String) : List String :=
  classes.filter fun x => x ≠ c

/-- Apply each of `attrs` to a node's attribute list
(`for (attribute in activeAttributes) node.attrBetter(attribute)`). -/
def applyAttrs (nodeAttrs : List String) (attrs : List String) : List String :=
  attrs.foldl addClass nodeAttrs

/-- Remove each of `attrs` from a node's attribute list
(`for (attribute in this.activeAttributes) node.removeAttrBetter(attribute)`). -/
def removeAttrs (nodeAttrs : List String) (attrs : List String) : List String :=
  attrs.foldl removeClass nodeAttrs

/-- Blur loop shared by Dialog.hide and Menu.hide:
`$(this).find('input').each(function(){ if (this === document.activeElement) this.blur(); })` —
the input elements inside the closing overlay are `inputs`. -/
def blurInside (inputs : List ElemId) (f : FocusState) : FocusState :=
  match f.activeElement with
  | some i => if i ∈ inputs then ⟨none⟩ else f
  | none => f

/-- State of a cq-menu component.  `lifted` stands for the DOM relocation done
by Menu.lift / Menu.unlift (uiManager.findLifts / lift / restoreLift live in
componentUI.js, outside this file set); the nested cq-scroll resize performed
by show is geometry-neutral here. -/
structure MenuComp where
  active : Bool
  classes : List String
  lifted : Bool
  inputs : List ElemId
deriving DecidableEq

/-- Menu.prototype.show: no-op when already active; otherwise set active, add
the stxMenuActive class and lift. -/
def menuShow (m : MenuComp) : MenuComp :=
  if m.active then m
  else { m with active := true, classes := addClass m.classes "stxMenuActive", lifted := true }

/-- Menu.prototype.hide: no-op when not active; otherwise unlift, remove the
stxMenuActive class, clear active, and blur any focused input inside. -/
def menuHide (m : MenuComp) (f : FocusState) : MenuComp × FocusState :=
  if !m.active then (m, f)
  else
    ({ m with lifted := false, classes := removeClass m.classes "stxMenuActive", active := false },
     blurInside m.inputs f)

/-- Parameters passed to Dialog.open / Dialog.show.  `x`, `y` are event page
coordinates when the dialog is used as a context menu. -/
structure DialogParams where
  x : Option ℚ
  y : Option ℚ
  bypassOverlay : Bool
deriving DecidableEq

/-- Geometry read by Dialog.resize: containing region (parent, or window when
the parent is BODY) width `w` and height `h`, and the dialog's own outer width
`cw` and height `ch`. -/
structure DialogGeom where
  w : ℚ
  h : ℚ
  cw : ℚ
  ch : ℚ
deriving DecidableEq

/-- Dialog.prototype.stxContextMenu: position at the requested point, pulling
the dialog left when it would overflow the right edge and up (by its own
height, then clamped to 0) when it would overflow the bottom edge.  Returns
(left, top). -/
def stxContextMenu (g : DialogGeom) (x y : ℚ) : ℚ × ℚ :=
  let left := x
  let top := y
  let left := if left + g.cw > g.w then g.w - g.cw else left
  let top := if top + g.ch > g.h then top - g.ch else top
  let top := if top < 0 then 0 else top
  (left, top)

/-- Dialog.prototype.center: center in the containing region, clamping left at
0, biasing to one third down on tall regions, and clamping top at 0. -/
def center (g : DialogGeom) : ℚ × ℚ :=
  let left := g.w / 2 - g.cw / 2
  let top := g.h / 2 - g.ch / 2
  let left := if left < 0 then 0 else left
  let top :=
    if g.h > g.ch * 2 ∧ top + g.ch / 2 > g.h / 3 then g.h / 3 - g.ch / 2 else top
  let top := if top < 0 then 0 else top
  (left, top)

/-- Truthiness of `this.params && this.params.x` for a numeric x (0 is falsy). -/
def qTruthy (q : Option ℚ) : Bool :=
  match q with
  | none => false
  | some v => decide (v ≠ 0)

/-- State of a cq-dialog component, together with the scrim overlay state that
Dialog.show / Dialog.hide maintain on the ui manager (`uiManager.overlay`). -/
structure DialogComp where
  params : Option DialogParams
  active : Bool
  activeAttributes : List String
  nodeAttrs : List String
  overlayPresent : Bool
  overlayActive : Bool
  pos : ℚ × ℚ
  geom : DialogGeom
  inputs : List ElemId
  invalid : Bool
deriving DecidableEq

/-- The position Dialog.prototype.resize assigns: context-menu placement when
params carry a truthy x (`if (this.params && this.params.x)`), centered
placement otherwise. -/
def resizePos (params : Option DialogParams) (g : DialogGeom) : ℚ × ℚ :=
  match params with
  | some p => if qTruthy p.x then stxContextMenu g (p.x.getD 0) (p.y.getD 0) else center g
  | none => center g

/-- Dialog.prototype.resize.  (The trailing nested cq-scroll resize is
geometry-neutral here.) -/
def dialogResize (d : DialogComp) : DialogComp :=
  { d with pos := resizePos d.params d.geom }

/-- Dialog.prototype.show: store params, create the scrim overlay when absent
(unless bypassed), then (in the timeout body) activate the overlay, add
cq-active to the active attributes, apply them to the node, resize, and set
active. -/
def dialogShow (p : DialogParams) (d : DialogComp) : DialogComp :=
  let d0 := { d with params := some p }
  let d1 :=
    if !d0.overlayPresent && !p.bypassOverlay then { d0 with overlayPresent := true } else d0
  let d2 :=
    if d1.overlayPresent && !p.bypassOverlay then { d1 with overlayActive := true } else d1
  let d3 := { d2 with activeAttributes := addClass d2.activeAttributes "cq-active" }
  let d4 := { d3 with nodeAttrs := applyAttrs d3.nodeAttrs d3.activeAttributes }
  let d5 := dialogResize d4
  { d5 with active := true }

/-- Dialog.prototype.hide: no-op when the dialog contains an element in the
:invalid state; otherwise clear active, deactivate and drop the scrim overlay,
remove the active attributes from the node and reset them, and blur any focused
input inside.  (The recursive `children hide` dispatch to nested components is
outside this single-dialog model.) -/
def dialogHide (d : DialogComp) (f : FocusState) : DialogComp × FocusState :=
  if d.invalid then (d, f)
  else
    ({ d with active := false, overlayActive := false, overlayPresent := false,
              nodeAttrs := removeAttrs d.nodeAttrs d.activeAttributes,
              activeAttributes := [] },
     blurInside d.inputs f)

/-! ## Scroll component (cq-scroll)

Scroll.prototype.keyStroke navigates cq-item children with the arrow keys and
fires the focused item's selectFC on enter / space.  A JS TypeError (undefined
dereference) is embedded as `Except.error`. -/

/-- A cq-item child of the scroll, with the geometry scrollToElement reads. -/
structure ScrollItem where
  offsetTop : Int
  clientHeight : Int
  focusedAttr : Bool
  hasSelectFC : Bool
deriving DecidableEq

structure ScrollComp where
  visible : Bool
  items : List ScrollItem
  clientHeight : Int
  scrollTop : Int
deriving DecidableEq

/-- Scroll.prototype.scrollToElement.  The argument mirrors `items[i]`: `none`
when the index was out of range (the JS value `undefined`), in which case the
body's first read of `item.offsetTop` throws. -/
def scrollToElement (s : ScrollComp) (item : Option ScrollItem) : Except String ScrollComp :=
  match item with
  | none => .error "TypeError: cannot read offsetTop of undefined"
  | some it =>
    let bottom := s.clientHeight
    let scrolled := s.scrollTop
    let itemBottom := it.offsetTop + it.clientHeight
    if it.offsetTop > scrolled ∧ itemBottom < bottom + scrolled then .ok s
    else .ok { s with scrollTop := max (itemBottom - bottom) 0 }

/-- `items.removeAttr('cq-focused')` on every item followed by
`$(items[j]).attr('cq-focused','true')`. -/
def setFocusAt (items : List ScrollItem) (j : Nat) : List ScrollItem :=
  items.mapIdx fun idx it => { it with focusedAttr := decide (idx = j) }

/-- Scroll.prototype.keyStroke.  Returns the new state and the handler's
boolean result, or an error when the source would throw. -/
def scrollKeyStroke (s : ScrollComp) (key : Key) : Except String (ScrollComp × Bool) :=
  if !s.visible then .ok (s, false)
  else if !(decide (key = .name "up") || decide (key = .name "down")
      || decide (key = .name "enter") || decide (key = .num 32)) then .ok (s, false)
  else
    let focusedIdx := s.items.findIdx? fun it => it.focusedAttr
    if decide (key = .num 32) || decide (key = .name "enter") then
      match focusedIdx with
      | some i =>
        if ((s.items.get? i).map fun it => it.hasSelectFC).getD false then
          .ok (s, true)   -- focused[0].selectFC.call(focused, e): external callback
        else .ok (s, false)
      | none => .ok (s, false)
    else
      match focusedIdx with
      | none =>
        -- $(items[0]).attr('cq-focused','true'); this.scrollToElement(items[0])
        let items1 := setFocusAt s.items 0
        match scrollToElement { s with items := items1 } (items1.get? 0) with
        | .error e => .error e
        | .ok s1 => .ok (s1, true)
      | some i =>
        let j := if key = .name "up" then i - 1
                 else if i + 1 ≥ s.items.length then s.items.length - 1 else i + 1
        let items1 := setFocusAt s.items j
        match scrollToElement { s with items := items1 } (items1.get? j) with
        | .error e => .error e
        | .ok s1 => .ok (s1, true)

/-! ## Lookup component (cq-lookup)

Lookup.prototype.keyStroke (the claimant handler registered when the component
carries cq-keystroke-claim). -/

/-- What a handler returns to the keystroke hub: `false`/`undefined` (not
captured), `true`, or `{allowDefault:true}`. -/
inductive KeyResult where
  | unhandled
  | handled
  | handledAllowDefault
deriving DecidableEq

/-- Where `document.activeElement` sits relative to this Lookup. -/
inductive FocusTarget where
  | lookupInput
  | otherInputOrTextarea
  | other
deriving DecidableEq

/-- Environment read by Lookup.keyStroke. -/
structure LookupEnv where
  focus : FocusTarget
  topMenuExists : Bool            -- this.uiManager.topMenu() truthy
  anyHighlighted : Bool           -- this.context.stx.anyHighlighted
  windowSelectionNonempty : Bool  -- window.getSelection().toString() truthy
  scrollFocusedItem : Bool        -- result list cq-scroll has a cq-focused item
  scrollFocusedHasSelect : Bool   -- ... and that item has a selectFC
deriving DecidableEq

/-- State of a cq-lookup component.  `visible` is the component's CSS
visibility; Lookup.keyStroke never reads it.  `opened` is the open state of the
enclosing cq-menu/cq-dialog driven by this.open() / this.close();
`acceptedText` records the acceptText driver queries issued; `selectedSymbol`
and `selectFCCalled` record the selection side effects; `blurRequested` records
CIQ.blur calls on the input. -/
structure LookupComp where
  visible : Bool
  inputValue : String
  chainMenuActive : Bool          -- $(this).parents().addBack().hasClass('stxMenuActive')
  keystrokeDefault : Bool         -- cq-keystroke-default attribute present
  uppercase : Bool                -- cq-uppercase attribute present
  usingEmptyDriver : Bool
  opened : Bool
  blurRequested : Bool
  acceptedText : List String
  selectedSymbol : Option String
  selectFCCalled : Bool
deriving DecidableEq

/-- `key >= 32 && key <= 222` — true only for numeric key codes (JS relational
comparison of a key-name string with a number is false). -/
def printableCode (key : Key) : Option Nat :=
  match key with
  | .num n => if 32 ≤ n ∧ n ≤ 222 then some n else none
  | .name _ => none

/-- The `if (result)` epilogue of Lookup.keyStroke: close when using the empty
driver, or when the input is empty and the key was escape/enter or `focused` is
falsy; otherwise open.  Returns `{allowDefault:true}` when `focused` is truthy.
Note that for enter keystrokes the source has reassigned `focused` to the
focused result item by this point. -/
def finishHandled (L : LookupComp) (focused : Bool) (key : Key) : LookupComp × KeyResult :=
  let L1 :=
    if L.usingEmptyDriver
        || (decide (L.inputValue.length = 0)
            && (decide (key = .name "escape") || decide (key = .name "enter") || !focused)) then
      { L with opened := false }
    else { L with opened := true }
  (L1, if focused then .handledAllowDefault else .handled)

/-- Lookup.prototype.keyStroke. -/
def lookupKeyStroke (L : LookupComp) (env : LookupEnv) (key : Key) (ks : Keystroke) :
    LookupComp × KeyResult :=
  if ks.ctrl || decide (key = .num 91) then (L, .unhandled)
  else
    let focused := decide (env.focus = .lookupInput)
    if !focused && decide (env.focus = .otherInputOrTextarea) then (L, .unhandled)
    else
      let iAmDisplayed := L.chainMenuActive
      let iAmActive := focused || iAmDisplayed
      if !iAmActive && !L.keystrokeDefault then (L, .unhandled)
      else if !iAmActive && !iAmDisplayed && env.topMenuExists then (L, .unhandled)
      else if decide (key = .num 32) && decide (L.inputValue = "") then (L, .unhandled)
      else
        match printableCode key with
        | some n =>
          let v := if !focused then L.inputValue ++ String.singleton (Char.ofNat n)
                   else L.inputValue
          finishHandled { L with inputValue := v, acceptedText := L.acceptedText ++ [v] }
            focused key
        | none =>
          if decide (key = .name "delete") || decide (key = .name "backspace") then
            if env.anyHighlighted then (L, .unhandled)
            else if decide (L.inputValue.length ≠ 0) then
              if env.windowSelectionNonempty then
                finishHandled { L with inputValue := "" } focused key
              else
                let v := if !focused then L.inputValue.dropRight 1 else L.inputValue
                let L1 :=
                  if decide (v.length ≠ 0) then
                    { L with inputValue := v, acceptedText := L.acceptedText ++ [v] }
                  else { L with inputValue := v }
                finishHandled L1 focused key
            else if decide (key = .name "backspace") then finishHandled L focused key
            else (L, .unhandled)
          else if decide (key = .name "escape") then
            if iAmDisplayed then
              finishHandled { L with inputValue := "", opened := false, blurRequested := true }
                focused key
            else (L, .unhandled)
          else if decide (key = .name "enter") && decide (L.inputValue ≠ "") then
            -- this.isActive() is input.value !== '', true here; note the source
            -- reassigns `focused` to the focused result item in this branch
            let fItem := env.scrollFocusedItem
            let L1 :=
              if fItem && env.scrollFocusedHasSelect then { L with selectFCCalled := true }
              else
                let val := if L.uppercase then L.inputValue.toUpper else L.inputValue
                { L with selectedSymbol := some val }
            finishHandled { L1 with blurRequested := true, opened := false, inputValue := "" }
              fItem key
          else (L, .unhandled)

/-! ## Undo component (cq-undo)

Undo.prototype maintains undostack / redostack of per-context drawing
snapshots.  JS arrays push/pop at the end; the embedding uses the list head as
the stack top.  CIQ.shallowClone copies the array, element-wise equal to its
argument: it is embedded as the identity on the list of (opaque) drawings. -/

abbrev CtxId := Nat

abbrev Drawing := Nat

structure UndoEntry where
  context : CtxId
  drawings : List Drawing
deriving DecidableEq

/-- CIQ.shallowClone on a drawings array. -/
def shallowClone (l : List Drawing) : List Drawing := l

/-- The cq-undo component state plus the per-context engine state it touches
(stx.drawingObjects, stx.activeDrawing). -/
structure UndoComp where
  undostack : List UndoEntry
  redostack : List UndoEntry
  contexts : List CtxId
  drawings : CtxId → List Drawing
  activeDrawing : CtxId → Bool

/-- Undo.prototype.undo: when some context has a drawing in progress, kill it
(engine-side stx.undo) and return; otherwise pop the undo stack, snapshot the
current drawings onto the redo stack and restore the popped snapshot. -/
def undoOp (s : UndoComp) : UndoComp :=
  if s.contexts.any (fun c => s.activeDrawing c) then s
  else
    match s.undostack with
    | [] => s
    | e :: rest =>
      { s with
        undostack := rest,
        redostack := ⟨e.context, shallowClone (s.drawings e.context)⟩ :: s.redostack,
        drawings := fun c => if c = e.context then shallowClone e.drawings else s.drawings c }

/-- Undo.prototype.redo: pop the redo stack, snapshot the current drawings onto
the undo stack and restore the popped snapshot. -/
def redoOp (s : UndoComp) : UndoComp :=
  match s.redostack with
  | [] => s
  | e :: rest =>
    { s with
      redostack := rest,
      undostack := ⟨e.context, shallowClone (s.drawings e.context)⟩ :: s.undostack,
      drawings := fun c => if c = e.context then shallowClone e.drawings else s.drawings c }

/-- Undo.prototype.handleEvent for an undoStamp: push the pre-change snapshot
and empty the redo stack. -/
def handleEvent (s : UndoComp) (c : CtxId) (before : List Drawing) : UndoComp :=
  { s with undostack := ⟨c, before⟩ :: s.undostack, redostack := [] }

/-! ## Concrete instances used in closed evaluations -/

/-- Two overlays, overlay 1 nested inside overlay 0. -/
def hierNested : Hierarchy := ⟨fun n => if n = 1 then [0] else []⟩

/-- Only overlay 0 active. -/
def stateActive0 : UIState := ⟨fun n => decide (n = 0)⟩

/-- A tap on a plain element (no flags), with no cq-menu-dropdown parent. -/
def plainTarget : TapTarget := ⟨[⟨false, false, false⟩], false⟩

/-- A tap on an element inside a cq-no-close section. -/
def noCloseTarget : TapTarget := ⟨[⟨false, false, false⟩, ⟨true, false, false⟩], false⟩

/-- An active menu containing input element 4. -/
def menuActiveW : MenuComp := ⟨true, ["stxMenuActive"], true, [4]⟩

/-- An inactive menu. -/
def menuIdleW : MenuComp := ⟨false, [], false, []⟩

def dialogGeomW : DialogGeom := ⟨100, 100, 20, 10⟩

/-- An active context-menu dialog positioned from params (1, 1). -/
def dialogActiveW : DialogComp :=
  ⟨some ⟨some 1, some 1, false⟩, true, ["cq-active"], ["cq-active"], true, true, (1, 1),
    dialogGeomW, [], false⟩

/-- Params re-opening the same dialog at (50, 50). -/
def paramsMoveW : DialogParams := ⟨some 50, some 50, false⟩

/-- Plain centered-dialog params. -/
def paramsPlainW : DialogParams := ⟨none, none, false⟩

/-- An inactive dialog containing input element 7. -/
def dialogIdleW : DialogComp :=
  ⟨none, false, [], [], false, false, (0, 0), dialogGeomW, [7], false⟩

/-- An active dialog containing input element 7, with no invalid input. -/
def dialogCleanW : DialogComp :=
  ⟨none, true, ["cq-active"], ["cq-active"], true, true, (0, 0), dialogGeomW, [7], false⟩

/-- An active dialog containing input element 7 and an input in the :invalid state. -/
def dialogInvalidW : DialogComp :=
  ⟨none, true, ["cq-active"], ["cq-active"], true, true, (0, 0), dialogGeomW, [7], true⟩

/-- Focus on element 7. -/
def focusOn7 : FocusState := ⟨some 7⟩

/-- Focus on element 4. -/
def focusOn4 : FocusState := ⟨some 4⟩

/-- Focus on element 99 (outside every overlay below). -/
def focusOn99 : FocusState := ⟨some 99⟩

/-- A region smaller than the dialog (cw > w). -/
def geomSmallW : DialogGeom := ⟨10, 10, 20, 5⟩

/-- A visible cq-scroll with no cq-item children. -/
def emptyScrollW : ScrollComp := ⟨true, [], 100, 0⟩

/-- A hidden cq-scroll. -/
def hiddenScrollW : ScrollComp := ⟨false, [], 100, 0⟩

/-- An invisible Lookup that claims default body keystrokes: visible = false,
empty input, menu chain inactive, cq-keystroke-default present. -/
def lookupInvisibleW : LookupComp :=
  ⟨false, "", false, true, false, false, false, false, [], none, false⟩

/-- A Lookup with neither focus nor active chain nor default claim. -/
def lookupIdleW : LookupComp :=
  ⟨true, "", false, false, false, false, false, false, [], none, false⟩

/-- Environment: focus elsewhere (not on any input), no top menu, nothing
highlighted or selected. -/
def lookupEnvFreeW : LookupEnv := ⟨.other, false, false, false, false, false⟩

/-- A keystroke with no modifiers. -/
def ksPlainW : Keystroke := ⟨false, false, false⟩

/-- An undo component: one undo entry for context 0, current drawings [1,2,3]. -/
def undoCompW : UndoComp :=
  ⟨[⟨0, [1, 2]⟩], [], [0], fun _ => [1, 2, 3], fun _ => false⟩

/-! ## Helper lemmas -/

theorem mem_addClass_self (l : List String) (c : String) : c ∈ addClass l c := by
  unfold addClass
  split
  · assumption
  · simp

theorem addClass_eq_of_mem {l : List String} {c : String} (h : c ∈ l) : addClass l c = l :=
  if_pos h

theorem addClass_idem (l : List String) (c : String) :
    addClass (addClass l c) c = addClass l c :=
  addClass_eq_of_mem (mem_addClass_self l c)

theorem mem_addClass_of_mem {l : List String} {c x : String} (h : x ∈ l) :
    x ∈ addClass l c := by
  unfold addClass
  split
  · exact h
  · exact List.mem_append_left _ h

theorem mem_applyAttrs_of_mem_base {n : List String} {x : String} (attrs : List String)
    (h : x ∈ n) : x ∈ applyAttrs n attrs := by
  induction attrs generalizing n with
  | nil => exact h
  | cons a rest ih => exact ih (mem_addClass_of_mem h)

theorem mem_applyAttrs_of_mem_attrs {n attrs : List String} {a : String} (h : a ∈ attrs) :
    a ∈ applyAttrs n attrs := by
  induction attrs generalizing n with
  | nil => cases h
  | cons x rest ih =>
    rcases List.mem_cons.mp h with h1 | h2
    · rw [h1]
      exact mem_applyAttrs_of_mem_base rest (mem_addClass_self n x)
    · exact ih h2

theorem applyAttrs_eq_self {n attrs : List String} (h : ∀ a ∈ attrs, a ∈ n) :
    applyAttrs n attrs = n := by
  induction attrs with
  | nil => rfl
  | cons x rest ih =>
    have hx : addClass n x = n := addClass_eq_of_mem (h x (List.mem_cons_self x rest))
    show applyAttrs (addClass n x) rest = n
    rw [hx]
    exact ih fun a ha => h a (List.mem_cons_of_mem x ha)

theorem applyAttrs_applyAttrs (n attrs : List String) :
    applyAttrs (applyAttrs n attrs) attrs = applyAttrs n attrs :=
  applyAttrs_eq_self fun _ ha => mem_applyAttrs_of_mem_attrs ha

/-- Clamping at zero, as the source writes it, is a max with zero. -/
theorem clampZero_eq_max (a : ℚ) : (if a < 0 then 0 else a) = max a 0 := by
  rcases le_or_lt 0 a with h | h
  · rw [if_neg (not_lt.mpr h), max_eq_left h]
  · rw [if_pos h, max_eq_right (le_of_lt h)]

/-! ## Coordination invariant lemmas -/

theorem chainInv_initState (H : Hierarchy) : chainInv H initState := by
  intro a b ha
  simp [initState] at ha

theorem chainInv_closeAllOverlays (H : Hierarchy) : chainInv H closeAllOverlays := by
  intro a b ha
  simp [closeAllOverlays] at ha

theorem chainInv_openOverlay (H : Hierarchy) (s : UIState) (o : OverlayId)
    (h : chainInv H s) : chainInv H (openOverlay H s o) := by
  intro a b ha hb hab
  simp only [openOverlay, Bool.or_eq_true, Bool.and_eq_true, decide_eq_true_eq] at ha hb
  rcases ha with ha | ⟨ha1, ha2⟩
  · rcases hb with hb | ⟨hb1, hb2⟩
    · exact absurd (ha.trans hb.symm) hab
    · subst ha
      exact Or.inr hb2
  · rcases hb with hb | ⟨hb1, hb2⟩
    · subst hb
      exact Or.inl ha2
    · exact h a b ha1 hb1 hab

theorem chainInv_closeOverlay (H : Hierarchy) (s : UIState) (o : OverlayId)
    (h : chainInv H s) : chainInv H (closeOverlay s o) := by
  intro a b ha hb hab
  simp only [closeOverlay, Bool.and_eq_true] at ha hb
  exact h a b ha.1 hb.1 hab

theorem chainInv_menuTap (H : Hierarchy) (s : UIState) (m : OverlayId) (t : TapTarget)
    (h : chainInv H s) : chainInv H (menuTap H s m t) := by
  unfold menuTap
  split
  · split
    · exact h
    · exact chainInv_closeOverlay H s m h
  · split
    · exact h
    · split
      · exact chainInv_openOverlay H s m h
      · exact chainInv_openOverlay H closeAllOverlays m (chainInv_closeAllOverlays H)

theorem chainInv_step (H : Hierarchy) (s : UIState) (op : UIOp)
    (h : chainInv H s) : chainInv H (step H s op) := by
  cases op with
  | openOp o => exact chainInv_openOverlay H s o h
  | closeOp o => exact chainInv_closeOverlay H s o h
  | tapOp m t => exact chainInv_menuTap H s m t h

theorem chainInv_foldl (H : Hierarchy) (ops : List UIOp) (s : UIState)
    (h : chainInv H s) : chainInv H (ops.foldl (step H) s) := by
  induction ops generalizing s with
  | nil => exact h
  | cons op rest ih => exact ih (step H s op) (chainInv_step H s op h)

/-! ## Claims -/

/-- C2: `routeKeyStroke` consults claimants one at a time in registration order
and stops at the first claimant whose handler reports the keystroke handled, so
no keystroke is ever delivered as handled to two or more claimants. -/
theorem c2_route_at_most_one_handled (registry : List Claimant) (key : Key) :
    ((routeKeyStroke registry key).countP fun d => d.2) ≤ 1 := by
  induction registry with
  | nil => simp [routeKeyStroke]
  | cons c rest ih =>
    unfold routeKeyStroke
    split
    · simp
    · simpa using ih

/-- C8: in every state reachable by a sequence of open, close and tap
operations, at most one overlay per independent stack root is active, except
that an overlay may be active together with another active overlay of which it
is an ancestor (cascading chains). -/
theorem c8_reachable_active_chain (H : Hierarchy) (ops : List UIOp) (a b : OverlayId)
    (ha : (run H ops).active a = true) (hb : (run H ops).active b = true)
    (hab : a ≠ b) (_hroot : stackRoot H a = stackRoot H b) :
    a ∈ H.chain b ∨ b ∈ H.chain a :=
  chainInv_foldl H ops initState (chainInv_initState H) a b ha hb hab

theorem c8_reachable_active_chain_witness :
    (run hierNested [UIOp.openOp 0, UIOp.openOp 1]).active 0 = true
    ∧ (run hierNested [UIOp.openOp 0, UIOp.openOp 1]).active 1 = true
    ∧ (0 : OverlayId) ≠ 1
    ∧ stackRoot hierNested 0 = stackRoot hierNested 1
    ∧ (0 ∈ hierNested.chain 1 ∨ 1 ∈ hierNested.chain 0) :=
  ⟨by decide, by decide, by decide, by decide,
    c8_reachable_active_chain hierNested [UIOp.openOp 0, UIOp.openOp 1] 0 1
      (by decide) (by decide) (by decide) (by decide)⟩

/-- C1: tapping open an inactive overlay B (the tap not coming from inside B's
dropdown): when no ancestor menu/dialog of B is active, every previously active
overlay A is closed; when B sits under an active ancestor A, that ancestor
stays active (cascading); in both cases B is active afterwards. -/
theorem c1_open_while_active (H : Hierarchy) (s : UIState) (B A : OverlayId) (t : TapTarget)
    (hB : s.active B = false) (ht : t.insideDropdown = false) :
    ((∀ c ∈ H.chain B, s.active c = false) → s.active A = true →
        (menuTap H s B t).active A = false)
    ∧ (A ∈ H.chain B → s.active A = true → (menuTap H s B t).active A = true)
    ∧ (menuTap H s B t).active B = true := by
  unfold menuTap
  rw [hB, ht]
  simp only [Bool.false_eq_true, if_false]
  refine ⟨?_, ?_, ?_⟩
  · intro hall hA
    have hAB : A ≠ B := fun e => by rw [e, hB] at hA; cases hA
    have hany : (H.chain B).any (fun p => s.active p) = false := by
      rw [List.any_eq_false]
      intro c hc
      simp [hall c hc]
    rw [hany]
    simp only [Bool.false_eq_true, if_false, openOverlay, closeAllOverlays,
      Bool.and_false, Bool.false_and, Bool.or_false]
    simpa using hAB
  · intro hmem hA
    have hany : (H.chain B).any (fun p => s.active p) = true := by
      simp only [List.any_eq_true]
      exact ⟨A, hmem, hA⟩
    rw [hany]
    simp only [if_true, openOverlay, Bool.or_eq_true, Bool.and_eq_true, decide_eq_true_eq]
    exact Or.inr ⟨hA, hmem⟩
  · split
    · simp [openOverlay]
    · simp [openOverlay]

theorem c1_open_while_active_witness :
    stateActive0.active 1 = false
    ∧ plainTarget.insideDropdown = false
    ∧ (menuTap hierNested stateActive0 1 plainTarget).active 0 = true
    ∧ (menuTap hierNested stateActive0 1 plainTarget).active 1 = true :=
  ⟨by decide, by decide,
    (c1_open_while_active hierNested stateActive0 1 0 plainTarget (by decide) (by decide)).2.1
      (by decide) (by decide),
    (c1_open_while_active hierNested stateActive0 1 0 plainTarget (by decide) (by decide)).2.2⟩

/-- C6 (amended): routing a tap walks the target's ancestor chain and any
cq-no-close, cq-separator or cq-heading element suppresses the auto-close;
otherwise a tap reaching an active menu closes it — including taps originating
inside the menu (Menu.prototype.tap receives exactly the taps dispatched inside
its own subtree); an active topmost dialog stops tap propagation so a tap
inside it never closes it. -/
theorem c6_tap_autoclose (H : Hierarchy) (s : UIState) (m : OverlayId) (t : TapTarget)
    (h : s.active m = true) :
    (captureTap t = true → (menuTap H s m t).active m = true)
    ∧ (captureTap t = false → (menuTap H s m t).active m = false)
    ∧ (∀ a : Bool, dialogTap true a = true) := by
  refine ⟨?_, ?_, ?_⟩
  · intro hnc
    unfold menuTap
    rw [h, hnc]
    simpa using h
  · intro hnc
    unfold menuTap
    rw [h, hnc]
    simp [closeOverlay]
  · intro a
    rfl

theorem c6_tap_autoclose_witness :
    (menuTap hierNested stateActive0 0 noCloseTarget).active 0 = true
    ∧ (menuTap hierNested stateActive0 0 plainTarget).active 0 = false :=
  ⟨(c6_tap_autoclose hierNested stateActive0 0 noCloseTarget (by decide)).1 (by decide),
    (c6_tap_autoclose hierNested stateActive0 0 plainTarget (by decide)).2.1 (by decide)⟩

/-- C6 counterexample: the claim as stated says a tap not flagged no-close
closes the active overlay "unless the tap originated inside it".  A stxtap
event on a plain element inside the open menu's own subtree (the only events
Menu.prototype.tap receives) does close the menu. -/
theorem c6_inside_tap_closes :
    stateActive0.active 0 = true
    ∧ captureTap plainTarget = false
    ∧ (menuTap hierNested stateActive0 0 plainTarget).active 0 = false := by
  decide

/-- C4 (amended): a second open of an already-active overlay with the same
parameters is a no-op: Menu.prototype.show returns immediately when the menu is
active, and Dialog.prototype.show is idempotent at fixed params.  (Re-opening
an active dialog with different coordinates repositions it; see the
counterexample.) -/
theorem c4_second_open_idempotent :
    (∀ m : MenuComp, m.active = true → menuShow m = m)
    ∧ ∀ (p : DialogParams) (d : DialogComp), dialogShow p (dialogShow p d) = dialogShow p d := by
  constructor
  · intro m hm
    unfold menuShow
    rw [hm]
    simp
  · intro p d
    cases d with
    | mk params active aattrs nattrs opres oact pos geom inputs invalid =>
      by_cases hb : p.bypassOverlay = true
      · simp [dialogShow, dialogResize, hb, addClass_idem, applyAttrs_applyAttrs]
      · by_cases ho : opres = true <;>
          simp [dialogShow, dialogResize, hb, ho, addClass_idem, applyAttrs_applyAttrs]

theorem c4_second_open_idempotent_witness :
    menuShow menuActiveW = menuActiveW
    ∧ dialogShow paramsPlainW (dialogShow paramsPlainW dialogIdleW) =
        dialogShow paramsPlainW dialogIdleW :=
  ⟨c4_second_open_idempotent.1 menuActiveW (by decide),
    c4_second_open_idempotent.2 paramsPlainW dialogIdleW⟩

/-- C4 counterexample: Dialog.prototype.show has no already-active guard; a
second open of the active context-menu dialog with different coordinates
changes its observable position. -/
theorem c4_reopen_moves_dialog :
    dialogActiveW.active = true
    ∧ (dialogShow paramsMoveW dialogActiveW).pos ≠ dialogActiveW.pos := by
  refine ⟨rfl, ?_⟩
  have h : (dialogShow paramsMoveW dialogActiveW).pos = (50, 50) := by
    norm_num [dialogShow, dialogResize, resizePos, qTruthy, stxContextMenu,
      dialogActiveW, paramsMoveW, dialogGeomW]
  rw [h]
  norm_num [dialogActiveW]

/-- C5 (amended): closing an overlay marks it inactive and blurs the focused
input strictly inside it while leaving any focus outside untouched, provided
the close guard passes: Dialog.prototype.hide only tears down a dialog with no
:invalid input, and Menu.prototype.hide only acts on an active menu. -/
theorem c5_close_blurs_inside (d : DialogComp) (m : MenuComp) (f g : FocusState)
    (hd : d.invalid = false) (hm : m.active = true) :
    ((dialogHide d f).1.active = false
      ∧ (∀ i, f.activeElement = some i → i ∈ d.inputs →
          (dialogHide d f).2.activeElement = none)
      ∧ (∀ i, f.activeElement = some i → i ∉ d.inputs → (dialogHide d f).2 = f))
    ∧ ((menuHide m g).1.active = false
      ∧ (∀ i, g.activeElement = some i → i ∈ m.inputs →
          (menuHide m g).2.activeElement = none)
      ∧ (∀ i, g.activeElement = some i → i ∉ m.inputs → (menuHide m g).2 = g)) := by
  constructor
  · refine ⟨?_, ?_, ?_⟩
    · simp [dialogHide, hd]
    · intro i hi hmem
      simp [dialogHide, hd, blurInside, hi, hmem]
    · intro i hi hmem
      simp [dialogHide, hd, blurInside, hi, hmem]
  · refine ⟨?_, ?_, ?_⟩
    · simp [menuHide, hm]
    · intro i hi hmem
      simp [menuHide, hm, blurInside, hi, hmem]
    · intro i hi hmem
      simp [menuHide, hm, blurInside, hi, hmem]

theorem c5_close_blurs_inside_witness :
    (dialogHide dialogCleanW focusOn7).1.active = false
    ∧ (dialogHide dialogCleanW focusOn7).2.activeElement = none
    ∧ (menuHide menuActiveW focusOn99).1.active = false
    ∧ (menuHide menuActiveW focusOn99).2 = focusOn99 :=
  ⟨(c5_close_blurs_inside dialogCleanW menuActiveW focusOn7 focusOn99 rfl rfl).1.1,
    (c5_close_blurs_inside dialogCleanW menuActiveW focusOn7 focusOn99 rfl rfl).1.2.1
      7 rfl (by decide),
    (c5_close_blurs_inside dialogCleanW menuActiveW focusOn7 focusOn99 rfl rfl).2.1,
    (c5_close_blurs_inside dialogCleanW menuActiveW focusOn7 focusOn99 rfl rfl).2.2.2
      99 rfl (by decide)⟩

/-- C5 counterexample: Dialog.prototype.hide returns without doing anything
when the dialog contains an input in the :invalid state: the dialog stays
active and the focused input inside it is not blurred, although the claim says
closing always marks inactive and blurs. -/
theorem c5_invalid_dialog_not_closed :
    dialogInvalidW.active = true
    ∧ 7 ∈ dialogInvalidW.inputs
    ∧ (dialogHide dialogInvalidW focusOn7).1.active = true
    ∧ (dialogHide dialogInvalidW focusOn7).2.activeElement = some 7 := by
  decide

/-- C7 (amended): a context-menu dialog that fits its region (cw ≤ w, ch ≤ h)
opened at in-region coordinates is kept on-screen: 0 ≤ left, left + cw ≤ w,
0 ≤ top and top + ch ≤ h.  Without coordinates the dialog is centered with left
and top clamped at 0, except that on tall regions (h > 2·ch) its vertical
center is placed at h/3.  (An oversized dialog escapes the region; see the
counterexample.) -/
theorem c7_dialog_positioning (g : DialogGeom) (x y : ℚ)
    (hx : 0 ≤ x) (hy : 0 ≤ y) (hyh : y ≤ g.h) (hcw : g.cw ≤ g.w) (hch : g.ch ≤ g.h)
    (hch0 : 0 ≤ g.ch) :
    (0 ≤ (stxContextMenu g x y).1 ∧ (stxContextMenu g x y).1 + g.cw ≤ g.w
      ∧ 0 ≤ (stxContextMenu g x y).2 ∧ (stxContextMenu g x y).2 + g.ch ≤ g.h)
    ∧ center g = (max (g.w / 2 - g.cw / 2) 0,
        if g.ch * 2 < g.h then g.h / 3 - g.ch / 2
        else max (g.h / 2 - g.ch / 2) 0) := by
  constructor
  · simp only [stxContextMenu]
    split_ifs <;>
      exact ⟨by linarith, by linarith, by linarith, by linarith⟩
  · have hL : (center g).1 = max (g.w / 2 - g.cw / 2) 0 := by
      simp only [center]
      exact clampZero_eq_max _
    have hT : (center g).2 = (if g.ch * 2 < g.h then g.h / 3 - g.ch / 2
        else max (g.h / 2 - g.ch / 2) 0) := by
      simp only [center]
      by_cases hc : g.ch * 2 < g.h
      · have h0 : (0 : ℚ) < g.h := by linarith
        have hcond : g.h > g.ch * 2 ∧ g.h / 2 - g.ch / 2 + g.ch / 2 > g.h / 3 :=
          ⟨by linarith, by linarith⟩
        rw [if_pos hcond, if_neg (by linarith : ¬g.h / 3 - g.ch / 2 < (0 : ℚ)), if_pos hc]
      · have hcond : ¬(g.h > g.ch * 2 ∧ g.h / 2 - g.ch / 2 + g.ch / 2 > g.h / 3) :=
          fun hh => hc (by linarith [hh.1])
        rw [if_neg hcond, if_neg hc]
        exact clampZero_eq_max _
    exact Prod.ext hL hT

theorem c7_dialog_positioning_witness :
    (0 ≤ (stxContextMenu dialogGeomW 95 95).1
      ∧ (stxContextMenu dialogGeomW 95 95).1 + dialogGeomW.cw ≤ dialogGeomW.w
      ∧ 0 ≤ (stxContextMenu dialogGeomW 95 95).2
      ∧ (stxContextMenu dialogGeomW 95 95).2 + dialogGeomW.ch ≤ dialogGeomW.h)
    ∧ center dialogGeomW = (max (dialogGeomW.w / 2 - dialogGeomW.cw / 2) 0,
        if dialogGeomW.ch * 2 < dialogGeomW.h then dialogGeomW.h / 3 - dialogGeomW.ch / 2
        else max (dialogGeomW.h / 2 - dialogGeomW.ch / 2) 0) :=
  c7_dialog_positioning dialogGeomW 95 95 (by norm_num) (by norm_num)
    (by norm_num [dialogGeomW]) (by norm_num [dialogGeomW]) (by norm_num [dialogGeomW])
    (by norm_num [dialogGeomW])

/-- C7 counterexample: for a dialog wider than its containing region
(cw > w) Dialog.prototype.stxContextMenu produces a negative left coordinate,
although the claim says neither coordinate is ever negative. -/
theorem c7_oversized_dialog_offscreen : (stxContextMenu geomSmallW 0 0).1 < 0 := by
  norm_num [stxContextMenu, geomSmallW]

/-- C3 (amended): Lookup.prototype.keyStroke processes a keystroke only when
its input is focused, its menu chain is active, or it declares
cq-keystroke-default and no other overlay is topmost — in every other case it
returns unhandled with its state unchanged; it never checks its own
visibility.  Scroll.prototype.keyStroke additionally requires the component to
be truly visible. -/
theorem c3_claimant_eligibility (L : LookupComp) (env : LookupEnv) (key : Key) (ks : Keystroke)
    (hfoc : env.focus ≠ FocusTarget.lookupInput)
    (hchain : L.chainMenuActive = false)
    (hdef : L.keystrokeDefault = false ∨ env.topMenuExists = true) :
    lookupKeyStroke L env key ks = (L, KeyResult.unhandled)
    ∧ ∀ (S : ScrollComp) (k : Key), S.visible = false →
        scrollKeyStroke S k = Except.ok (S, false) := by
  constructor
  · have hf : decide (env.focus = FocusTarget.lookupInput) = false := by
      simpa using hfoc
    cases hdd : L.keystrokeDefault with
    | false => simp [lookupKeyStroke, hf, hchain, hdd]
    | true =>
      have ht : env.topMenuExists = true := by
        rcases hdef with hd | ht
        · rw [hdd] at hd
          cases hd
        · exact ht
      simp [lookupKeyStroke, hf, hchain, hdd, ht]
  · intro S k h
    simp [scrollKeyStroke, h]

theorem c3_claimant_eligibility_witness :
    lookupKeyStroke lookupIdleW lookupEnvFreeW (Key.num 65) ksPlainW
        = (lookupIdleW, KeyResult.unhandled)
    ∧ scrollKeyStroke hiddenScrollW (Key.name "down") = Except.ok (hiddenScrollW, false) :=
  ⟨(c3_claimant_eligibility lookupIdleW lookupEnvFreeW (Key.num 65) ksPlainW
      (by decide) rfl (Or.inl rfl)).1,
    (c3_claimant_eligibility lookupIdleW lookupEnvFreeW (Key.num 65) ksPlainW
      (by decide) rfl (Or.inl rfl)).2 hiddenScrollW (Key.name "down") rfl⟩

/-- C3 counterexample: an invisible Lookup whose cq-keystroke-default claim
applies (no menu topmost) still processes a printable keystroke: the handler
appends to the input value, issues a driver query, opens the lookup and
reports the keystroke handled, although the claim requires the claimant to be
visible. -/
theorem c3_invisible_lookup_handles :
    lookupInvisibleW.visible = false
    ∧ (lookupKeyStroke lookupInvisibleW lookupEnvFreeW (Key.num 65) ksPlainW).2
        = KeyResult.handled
    ∧ (lookupKeyStroke lookupInvisibleW lookupEnvFreeW (Key.num 65) ksPlainW).1.inputValue
        = "A"
    ∧ (lookupKeyStroke lookupInvisibleW lookupEnvFreeW (Key.num 65) ksPlainW).1.opened
        = true := by
  decide

/-- C9: divergence evidence for the safety claim.  On a visible cq-scroll with
no cq-item children, an arrow keystroke reaches
`this.scrollToElement(items[0])` with `items[0]` undefined, and the first read
of `item.offsetTop` throws a TypeError — the handler neither returns cleanly
nor leaves state untouched as the claim says.  Enter and space on the same
state do return cleanly. -/
theorem c9_empty_scroll_arrow_throws :
    emptyScrollW.visible = true
    ∧ scrollKeyStroke emptyScrollW (Key.name "down")
        = Except.error "TypeError: cannot read offsetTop of undefined"
    ∧ scrollKeyStroke emptyScrollW (Key.name "enter") = Except.ok (emptyScrollW, false) :=
  ⟨rfl, rfl, rfl⟩

/-- C10: with a non-empty undo stack and no chart mid-drawing, undo moves
exactly one entry from the undo stack to the redo stack, redo moves one back,
the round trip restores every context's drawingObjects (element-wise:
CIQ.shallowClone is the identity on the drawing list), and every undoStamp
event pushed through handleEvent empties the redo stack. -/
theorem c10_undo_redo_round_trip (s : UndoComp)
    (hne : s.undostack ≠ [])
    (hnd : ∀ c ∈ s.contexts, s.activeDrawing c = false) :
    (∀ c, (redoOp (undoOp s)).drawings c = s.drawings c)
    ∧ (redoOp (undoOp s)).undostack = s.undostack
    ∧ (redoOp (undoOp s)).redostack = s.redostack
    ∧ (undoOp s).undostack = s.undostack.tail
    ∧ (undoOp s).redostack.length = s.redostack.length + 1
    ∧ ∀ (c : CtxId) (before : List Drawing),
        (handleEvent s c before).redostack = []
        ∧ (handleEvent s c before).undostack = ⟨c, before⟩ :: s.undostack := by
  have hany : (s.contexts.any fun c => s.activeDrawing c) = false := by
    rw [List.any_eq_false]
    intro c hc
    simp [hnd c hc]
  obtain ⟨e, rest, hu⟩ := List.exists_cons_of_ne_nil hne
  refine ⟨?_, ?_, ?_, ?_, ?_, ?_⟩
  · intro c
    by_cases hc : c = e.context <;>
      simp [undoOp, redoOp, hany, hu, shallowClone, hc]
  · simp [undoOp, redoOp, hany, hu, shallowClone]
  · simp [undoOp, redoOp, hany, hu, shallowClone]
  · simp [undoOp, hany, hu]
  · simp [undoOp, hany, hu]
  · intro c before
    exact ⟨rfl, rfl⟩

theorem c10_undo_redo_round_trip_witness :
    (redoOp (undoOp undoCompW)).drawings 0 = undoCompW.drawings 0
    ∧ (redoOp (undoOp undoCompW)).undostack = undoCompW.undostack
    ∧ (undoOp undoCompW).undostack = undoCompW.undostack.tail
    ∧ (handleEvent undoCompW 0 [9]).redostack = [] :=
  ⟨(c10_undo_redo_round_trip undoCompW (by decide) (by decide)).1 0,
    (c10_undo_redo_round_trip undoCompW (by decide) (by decide)).2.1,
    (c10_undo_redo_round_trip undoCompW (by decide) (by decide)).2.2.2.1,
    ((c10_undo_redo_round_trip undoCompW (by decide) (by decide)).2.2.2.2.2 0 [9]).1⟩

end SmartCharts
